import Mathlib

/-
Shallow embedding of the concurrent dependency health-prober
(task_191323, variants v1.go and v2.go).

The interesting core is the pure data flow of `GetAllDockers` in each
variant: every probe goroutine performs one HTTP GET, classifies its
outcome, derives one `Docker` record, and hands it to a shared
collection (a mutex-guarded slice in v1, a buffered channel in v2).
We model a probe outcome as the data the goroutine observes
(timestamps plus the transport / body-read / response classification),
the record derivation as a pure function per variant (it is pure in the
source: each branch only fills the local `docker` struct), and the
nondeterministic completion order of the three goroutines as an
arbitrary permutation of the probe indices.
-/

namespace DockerHealth

/-- Status message constants, v1.go lines 24-25 (identical strings in
v2.go lines 25-26). -/
def DOCKER_JWT_STOPPED : String := "Docker rest_api_jwt_pdv_app com problema"

/-- Status message for a healthy probe, v1.go line 25 / v2.go line 26. -/
def DOCKER_JWT_RUNNING : String := "Docker rest_api_jwt_pdv_app rodando normalmente"

/-- Classification of one probe attempt, as distinguished by the
branches of the goroutine body in both variants:
`client.Get` returns an error (transport failure, no response),
or a response arrives and `ioutil.ReadAll(req.Body)` fails
(carrying the response status), or the body is read to completion
(carrying the response status). -/
inductive ProbeResult where
  | transportError : ProbeResult
  | bodyReadError (status : Int) : ProbeResult
  | bodyRead (status : Int) : ProbeResult
deriving DecidableEq, Repr

/-- Everything one probe goroutine observes: the `time.Now()` taken for
`CheckedAt`, the measured `elapsed` duration, and the classified
result of the GET. Times are modelled as abstract naturals. -/
structure ProbeOutcome where
  checkedAt : Nat
  responseTime : Nat
  result : ProbeResult
deriving DecidableEq, Repr

/-- The `Docker` model struct, v1.go lines 28-34 / v2.go lines 31-37. -/
structure Docker where
  Name : String
  Running : Bool
  CheckedAt : Nat
  StatusCode : Int
  ResponseTime : Nat
deriving DecidableEq, Repr

/-- Record derivation of v1's goroutine body (v1.go lines 68-112):
on a transport error the record is stopped with `StatusCode = -1`;
on a body-read error it is stopped with the response's status code;
on a fully read response it is running iff the status is 200, and the
status code is copied in every case. -/
def v1Record (o : ProbeOutcome) : Docker :=
  match o.result with
  | .transportError =>
      ⟨DOCKER_JWT_STOPPED, false, o.checkedAt, -1, o.responseTime⟩
  | .bodyReadError s =>
      ⟨DOCKER_JWT_STOPPED, false, o.checkedAt, s, o.responseTime⟩
  | .bodyRead s =>
      if s = 200 then
        ⟨DOCKER_JWT_RUNNING, true, o.checkedAt, s, o.responseTime⟩
      else
        ⟨DOCKER_JWT_STOPPED, false, o.checkedAt, s, o.responseTime⟩

/-- Record derivation of v2's goroutine body (v2.go lines 90-120):
on a transport error or a body-read error the record is stopped and
`StatusCode` keeps its zero value; on a fully read response the record
is running with the response's status code, without any check that the
status is 200. -/
def v2Record (o : ProbeOutcome) : Docker :=
  match o.result with
  | .transportError =>
      ⟨DOCKER_JWT_STOPPED, false, o.checkedAt, 0, o.responseTime⟩
  | .bodyReadError _ =>
      ⟨DOCKER_JWT_STOPPED, false, o.checkedAt, 0, o.responseTime⟩
  | .bodyRead s =>
      ⟨DOCKER_JWT_RUNNING, true, o.checkedAt, s, o.responseTime⟩

/-- v1's collection discipline (v1.go lines 109-111): each goroutine,
as it completes, appends its record to the shared slice under the
mutex. `arrival` is the completion order of the goroutine indices. -/
def collectMutex (record : Fin 3 → Docker) (arrival : List (Fin 3)) : List Docker :=
  arrival.foldl (fun acc i => acc ++ [record i]) []

/-- v2's collection discipline (v2.go lines 120-133): each goroutine
sends its record into the buffered channel, a closer goroutine closes
the channel after `wg.Wait()`, and the caller drains it in FIFO send
order into the slice. `sends` is the completion (send) order. -/
def collectChannel (record : Fin 3 → Docker) (sends : List (Fin 3)) : List Docker :=
  sends.foldl (fun acc i => acc ++ [record i]) []

/-- The batch of v1's `GetAllDockers` (v1.go lines 61-119), as a
function of the three probe outcomes and of the goroutine completion
order. The loop spawns exactly 3 goroutines, so a completed batch has
an `arrival` list that is a permutation of the indices 0, 1, 2. -/
def v1GetAllDockers (probe : Fin 3 → ProbeOutcome) (arrival : List (Fin 3)) : List Docker :=
  collectMutex (fun i => v1Record (probe i)) arrival

/-- The batch of v2's `GetAllDockers` (v2.go lines 75-135), as a
function of the three probe outcomes and of the channel send order. -/
def v2GetAllDockers (probe : Fin 3 → ProbeOutcome) (sends : List (Fin 3)) : List Docker :=
  collectChannel (fun i => v2Record (probe i)) sends

/-- The process environment as the two variables the program reads via
`os.Getenv`; following Go, an unset variable reads as `""`. -/
structure Env where
  timeDelayVar : String
  dockerAPIJWTVar : String
deriving DecidableEq, Repr

/-- v2.go lines 190-201, `getEnvInt`: an empty variable yields the
default; an unparsable value logs a warning and yields the default;
otherwise the parsed integer. `strconv.Atoi` is modelled by
`String.toInt?`. -/
def getEnvInt (valueStr : String) (defaultValue : Int) : Int :=
  if valueStr = "" then defaultValue
  else
    match valueStr.toInt? with
    | none => defaultValue
    | some value => value

/-- v1.go lines 123-129: `strconv.Atoi(timeDelayStr)`; on any parse
error (including the empty string) a warning is logged and the default
15 is used. -/
def v1ParseTimeDelay (timeDelayStr : String) : Int :=
  match timeDelayStr.toInt? with
  | none => 15
  | some value => value

/-- Result of a startup step that may call `log.Fatal`. -/
inductive Init (α : Type) where
  | fatal (msg : String) : Init α
  | ok (cfg : α) : Init α
deriving Repr

/-- Whether the startup step aborted the process via `log.Fatal`. -/
def Init.isFatal {α : Type} : Init α → Bool
  | .fatal _ => true
  | .ok _ => false

/-- The parameters v1's `Initialize` fixes for the service lifetime:
the target URL and the time delay (used as the client timeout in
seconds), v1.go lines 131-141. -/
structure V1Config where
  dockerAPIURL : String
  timeDelaySeconds : Int
deriving DecidableEq, Repr

/-- The only parameter v2's `Initialize` fixes: the client timeout of
30 seconds, v2.go line 140. -/
structure V2Config where
  clientTimeoutSeconds : Int
deriving DecidableEq, Repr

/-- v1.go lines 122-142, `Server.Initialize`: parse `TIME_DELAY` with
default 15, then `log.Fatal` iff `DOCKER_API_JWT` is empty; any
non-empty URL string is accepted without further validation. -/
def v1Initialize (env : Env) : Init V1Config :=
  let timeDelay := v1ParseTimeDelay env.timeDelayVar
  if env.dockerAPIJWTVar = "" then
    .fatal "DOCKER_API_JWT environment variable not set"
  else
    .ok ⟨env.dockerAPIJWTVar, timeDelay⟩

/-- v2.go lines 138-142, `Server.Initialize`: builds the router and a
client with a 30 second timeout; it reads no environment variable and
performs no URL check, so it never fails. -/
def v2Initialize (_env : Env) : Init V2Config :=
  .ok ⟨30⟩

/-- v2.go lines 76-83, the start of each `GetAllDockers` call: re-read
`TIME_DELAY` via `getEnvInt` with default 15, then `log.Fatal` iff
`DOCKER_API_JWT` is empty — a per-request check, executed on every
batch invocation. -/
def v2BatchStartup (env : Env) : Init V1Config :=
  let timeDelay := getEnvInt env.timeDelayVar 15
  if env.dockerAPIJWTVar = "" then
    .fatal "DOCKER_API_JWT environment variable not set"
  else
    .ok ⟨env.dockerAPIJWTVar, timeDelay⟩

/-- Coarse step trace of one batch call, to state where the blocking
operations occur. -/
inductive BatchStep where
  | spawnProbes (n : Nat) : BatchStep
  | joinAll : BatchStep
  | sleepSeconds (secs : Int) : BatchStep
  | returnReport : BatchStep
deriving DecidableEq, Repr

/-- v1.go lines 61-119: spawn the 3 goroutines, `wg.Wait()`, return —
no further blocking between the join and the return. -/
def v1BatchTrace : List BatchStep :=
  [.spawnProbes 3, .joinAll, .returnReport]

/-- v2.go lines 87-134: spawn the 3 goroutines, drain the channel
until the closer goroutine closes it after `wg.Wait()` (the join),
then `time.Sleep(timeDelay * time.Second)` before returning. -/
def v2BatchTrace (env : Env) : List BatchStep :=
  [.spawnProbes 3, .joinAll,
   .sleepSeconds (getEnvInt env.timeDelayVar 15), .returnReport]

/-- The two terminal shutdown paths of `Server.Run`: either
`srv.Shutdown(ctx)` finishes inside the 5 second grace period, or the
grace period expires and `Shutdown` returns the context error. -/
inductive ShutdownOutcome where
  | completedWithinGrace : ShutdownOutcome
  | gracePeriodExpired : ShutdownOutcome
deriving DecidableEq, Repr

/-- Exit status produced by `log.Fatal` / `log.Fatalf`: the Go runtime
prints the message and calls `os.Exit(1)`. -/
def logFatalExitCode : Nat := 1

/-- Process exit status of v1's `Server.Run` (v1.go lines 144-168)
after a termination signal, by shutdown outcome. If the grace period
expires, `srv.Shutdown` errors and line 162 calls `log.Fatalf`. If the
shutdown completes, `srv.ListenAndServe()` returns
`http.ErrServerClosed`, which line 166 passes to `log.Fatal` — so v1
exits with status 1 on both paths. -/
def v1RunExitCode (s : ShutdownOutcome) : Nat :=
  match s with
  | .gracePeriodExpired => logFatalExitCode
  | .completedWithinGrace => logFatalExitCode

/-- Process exit status of v2's `Server.Run` (v2.go lines 144-175)
after a termination signal. If the grace period expires,
`srv.Shutdown` errors and line 172 calls `log.Fatalf`; otherwise `Run`
returns, `main` returns, and the process exits with status 0. -/
def v2RunExitCode (s : ShutdownOutcome) : Nat :=
  match s with
  | .gracePeriodExpired => logFatalExitCode
  | .completedWithinGrace => 0

/-- JSON values, the target of `encoding/json` serialization. -/
inductive Json where
  | jbool (b : Bool) : Json
  | jnum (n : Int) : Json
  | jstr (s : String) : Json
  | jarr (elems : List Json) : Json
  | jobj (fields : List (String × Json)) : Json

/-- Serialization of one `Docker` record with its struct tags
(v1.go lines 28-34 / v2.go lines 31-37); the two timestamps are
abstract numbers in the model. -/
def encodeDocker (d : Docker) : Json :=
  .jobj [("name", .jstr d.Name),
         ("running", .jbool d.Running),
         ("checkedAt", .jnum (Int.ofNat d.CheckedAt)),
         ("statusCode", .jnum d.StatusCode),
         ("responseTime", .jnum (Int.ofNat d.ResponseTime))]

/-- Serialization of the whole report as a JSON array. -/
def encodeDockers (ds : List Docker) : Json :=
  .jarr (ds.map encodeDocker)

/-- An HTTP response as the endpoint produces it. -/
structure HttpResponse where
  status : Nat
  contentType : String
  body : Json

/-- v1's controller (v1.go lines 180-184) composed with the JSON
middleware (lines 43-48): sets `Content-Type: application/json`, then
`JSON(w, http.StatusOK, resp)` writes status 200 and encodes the
batch, whatever the batch contains. -/
def v1Handler (batch : List Docker) : HttpResponse :=
  ⟨200, "application/json", encodeDockers batch⟩

/-- v2's controller (v2.go lines 183-186) composed with the JSON
middleware (lines 46-51): identical response shape, status 200
unconditionally. -/
def v2Handler (batch : List Docker) : HttpResponse :=
  ⟨200, "application/json", encodeDockers batch⟩

/-- A status code is a valid HTTP status iff it lies in 100..599. -/
def isValidHttpStatus (s : Int) : Bool :=
  100 ≤ s && s ≤ 599

/-- The fields claim C7 compares across the two variants: label, flag
and status code of a record. -/
def recordKey (d : Docker) : String × Bool × Int :=
  (d.Name, d.Running, d.StatusCode)

/-- The connection-lifecycle actions of one probe goroutine. -/
inductive ProbeEvent where
  | httpGet : ProbeEvent
  | readBodyToEnd : ProbeEvent
  | closeBody : ProbeEvent
deriving DecidableEq, Repr

/-- Event order of one v1 probe goroutine (v1.go lines 68-112): the
GET; when a response arrives, `defer req.Body.Close()` is registered
and `ioutil.ReadAll(req.Body)` drains the body, so the full-body read
happens before the deferred close runs at goroutine exit. On a
transport error there is no body. -/
def v1ProbeEvents (r : ProbeResult) : List ProbeEvent :=
  match r with
  | .transportError => [.httpGet]
  | .bodyReadError _ => [.httpGet, .readBodyToEnd, .closeBody]
  | .bodyRead _ => [.httpGet, .readBodyToEnd, .closeBody]

/-- Event order of one v2 probe goroutine (v2.go lines 94-119): same
structure — `defer req.Body.Close()` then `ioutil.ReadAll`. -/
def v2ProbeEvents (r : ProbeResult) : List ProbeEvent :=
  match r with
  | .transportError => [.httpGet]
  | .bodyReadError _ => [.httpGet, .readBodyToEnd, .closeBody]
  | .bodyRead _ => [.httpGet, .readBodyToEnd, .closeBody]

lemma collect_foldl_eq_map (f : Fin 3 → Docker) (a : List (Fin 3)) (acc : List Docker) :
    a.foldl (fun acc i => acc ++ [f i]) acc = acc ++ a.map f := by
  induction a generalizing acc with
  | nil => simp
  | cons x xs ih => simp [List.foldl_cons, ih]

lemma collectMutex_eq_map (f : Fin 3 → Docker) (a : List (Fin 3)) :
    collectMutex f a = a.map f := by
  simpa using collect_foldl_eq_map f a []

lemma collectChannel_eq_map (f : Fin 3 → Docker) (a : List (Fin 3)) :
    collectChannel f a = a.map f := by
  simpa using collect_foldl_eq_map f a []

lemma running_ne_stopped : DOCKER_JWT_RUNNING ≠ DOCKER_JWT_STOPPED := by
  decide

lemma stopped_ne_running : DOCKER_JWT_STOPPED ≠ DOCKER_JWT_RUNNING := by
  decide

lemma responseEventsOrdered :
    ProbeEvent.readBodyToEnd ∈
      ([ProbeEvent.httpGet, ProbeEvent.readBodyToEnd, ProbeEvent.closeBody] : List ProbeEvent) ∧
    ProbeEvent.closeBody ∈
      ([ProbeEvent.httpGet, ProbeEvent.readBodyToEnd, ProbeEvent.closeBody] : List ProbeEvent) ∧
    ([ProbeEvent.httpGet, ProbeEvent.readBodyToEnd, ProbeEvent.closeBody] :
        List ProbeEvent).indexOf ProbeEvent.readBodyToEnd <
      ([ProbeEvent.httpGet, ProbeEvent.readBodyToEnd, ProbeEvent.closeBody] :
        List ProbeEvent).indexOf ProbeEvent.closeBody := by
  decide

/-- C1: the batch of either variant, once it returns, holds exactly 3
records, whatever the three probe outcomes are — every goroutine
contributes exactly one record (one mutex-guarded append in v1, one
channel send in v2), so a completed batch is a permutation of the
three indices and the report length is 3. -/
theorem C1_batch_returns_exactly_three_records
    (probe : Fin 3 → ProbeOutcome) (arrival sends : List (Fin 3))
    (h1 : arrival.Perm (List.finRange 3)) (h2 : sends.Perm (List.finRange 3)) :
    (v1GetAllDockers probe arrival).length = 3 ∧
    (v2GetAllDockers probe sends).length = 3 := by
  constructor
  · rw [v1GetAllDockers, collectMutex_eq_map, List.length_map, h1.length_eq,
      List.length_finRange]
  · rw [v2GetAllDockers, collectChannel_eq_map, List.length_map, h2.length_eq,
      List.length_finRange]

/-- Witness for C1 at a concrete batch in which every probe fails at
the transport level. -/
theorem C1_batch_returns_exactly_three_records_witness :
    ([0, 1, 2] : List (Fin 3)).Perm (List.finRange 3) ∧
    ((v1GetAllDockers (fun _ => ⟨0, 0, .transportError⟩) [0, 1, 2]).length = 3 ∧
     (v2GetAllDockers (fun _ => ⟨0, 0, .transportError⟩) [0, 1, 2]).length = 3) :=
  ⟨by decide,
   C1_batch_returns_exactly_three_records (fun _ => ⟨0, 0, .transportError⟩)
     [0, 1, 2] [0, 1, 2] (by decide) (by decide)⟩

/-- C2: v1 satisfies the claimed equivalence — a record is Running iff
the probe got a fully read response with status 200 — but v2 violates
it: a response with status 500 whose body reads successfully yields a
record with Running true, StatusCode 500 and the running label,
because v2's goroutine never compares the status code against 200. -/
theorem C2_running_iff_200_holds_in_v1_fails_in_v2 :
    (∀ o : ProbeOutcome, (v1Record o).Running = true ↔ o.result = .bodyRead 200) ∧
    (v2Record ⟨0, 0, .bodyRead 500⟩).Running = true ∧
    (v2Record ⟨0, 0, .bodyRead 500⟩).StatusCode = 500 ∧
    (v2Record ⟨0, 0, .bodyRead 500⟩).Name = DOCKER_JWT_RUNNING := by
  refine ⟨?_, rfl, rfl, rfl⟩
  intro o
  rcases o with ⟨ca, rt, r⟩
  cases r with
  | transportError => simp [v1Record]
  | bodyReadError s => simp [v1Record]
  | bodyRead s =>
      by_cases hs : s = 200
      · subst hs; simp [v1Record]
      · simp [v1Record, hs]

/-- C3: a transport-level failure yields a Running = false record whose
StatusCode is a sentinel outside the valid HTTP range (v1 stores -1,
v2 leaves the zero value 0), and the failed probe still contributes
its record to the returned batch — the failure is data, the batch
signature has no error channel. -/
theorem C3_transport_failure_recorded_as_sentinel_data :
    (∀ o : ProbeOutcome, o.result = .transportError →
      (v1Record o).Running = false ∧ (v1Record o).StatusCode = -1 ∧
      isValidHttpStatus (v1Record o).StatusCode = false ∧
      (v2Record o).Running = false ∧ (v2Record o).StatusCode = 0 ∧
      isValidHttpStatus (v2Record o).StatusCode = false) ∧
    (∀ (probe : Fin 3 → ProbeOutcome) (arrival sends : List (Fin 3)) (i : Fin 3),
      arrival.Perm (List.finRange 3) → sends.Perm (List.finRange 3) →
      v1Record (probe i) ∈ v1GetAllDockers probe arrival ∧
      v2Record (probe i) ∈ v2GetAllDockers probe sends) := by
  constructor
  · intro o ho
    rcases o with ⟨ca, rt, r⟩
    cases ho
    exact ⟨rfl, rfl, rfl, rfl, rfl, rfl⟩
  · intro probe arrival sends i h1 h2
    have hi1 : i ∈ arrival := h1.mem_iff.mpr (List.mem_finRange i)
    have hi2 : i ∈ sends := h2.mem_iff.mpr (List.mem_finRange i)
    constructor
    · rw [v1GetAllDockers, collectMutex_eq_map]
      exact List.mem_map_of_mem (fun j => v1Record (probe j)) hi1
    · rw [v2GetAllDockers, collectChannel_eq_map]
      exact List.mem_map_of_mem (fun j => v2Record (probe j)) hi2

/-- Witness for C3 at a concrete transport-failing probe sitting in a
concrete completed batch. -/
theorem C3_transport_failure_recorded_as_sentinel_data_witness :
    ((v1Record ⟨0, 0, .transportError⟩).Running = false ∧
     (v1Record ⟨0, 0, .transportError⟩).StatusCode = -1 ∧
     isValidHttpStatus (v1Record ⟨0, 0, .transportError⟩).StatusCode = false ∧
     (v2Record ⟨0, 0, .transportError⟩).Running = false ∧
     (v2Record ⟨0, 0, .transportError⟩).StatusCode = 0 ∧
     isValidHttpStatus (v2Record ⟨0, 0, .transportError⟩).StatusCode = false) ∧
    (v1Record ((fun _ => ⟨0, 0, .transportError⟩ : Fin 3 → ProbeOutcome) 0) ∈
       v1GetAllDockers (fun _ => ⟨0, 0, .transportError⟩) [0, 1, 2] ∧
     v2Record ((fun _ => ⟨0, 0, .transportError⟩ : Fin 3 → ProbeOutcome) 0) ∈
       v2GetAllDockers (fun _ => ⟨0, 0, .transportError⟩) [0, 1, 2]) :=
  ⟨C3_transport_failure_recorded_as_sentinel_data.1 ⟨0, 0, .transportError⟩ rfl,
   C3_transport_failure_recorded_as_sentinel_data.2
     (fun _ => ⟨0, 0, .transportError⟩) [0, 1, 2] [0, 1, 2] 0
     (by decide) (by decide)⟩

/-- C4: whenever a response is received (both error-free reads and
failed reads), the probe goroutine reads the body to completion before
the deferred close releases the connection, in both variants; and a
body-read failure yields a failure record — Running false with the
problem label — never a success record. -/
theorem C4_body_read_before_close_and_read_failure_is_failure_record :
    (∀ r : ProbeResult, r ≠ .transportError →
      ProbeEvent.readBodyToEnd ∈ v1ProbeEvents r ∧
      ProbeEvent.closeBody ∈ v1ProbeEvents r ∧
      (v1ProbeEvents r).indexOf ProbeEvent.readBodyToEnd <
        (v1ProbeEvents r).indexOf ProbeEvent.closeBody ∧
      ProbeEvent.readBodyToEnd ∈ v2ProbeEvents r ∧
      ProbeEvent.closeBody ∈ v2ProbeEvents r ∧
      (v2ProbeEvents r).indexOf ProbeEvent.readBodyToEnd <
        (v2ProbeEvents r).indexOf ProbeEvent.closeBody) ∧
    (∀ (o : ProbeOutcome) (s : Int), o.result = .bodyReadError s →
      (v1Record o).Running = false ∧ (v1Record o).Name = DOCKER_JWT_STOPPED ∧
      (v2Record o).Running = false ∧ (v2Record o).Name = DOCKER_JWT_STOPPED) := by
  constructor
  · intro r hr
    cases r with
    | transportError => exact absurd rfl hr
    | bodyReadError s =>
        exact ⟨responseEventsOrdered.1, responseEventsOrdered.2.1, responseEventsOrdered.2.2,
               responseEventsOrdered.1, responseEventsOrdered.2.1, responseEventsOrdered.2.2⟩
    | bodyRead s =>
        exact ⟨responseEventsOrdered.1, responseEventsOrdered.2.1, responseEventsOrdered.2.2,
               responseEventsOrdered.1, responseEventsOrdered.2.1, responseEventsOrdered.2.2⟩
  · intro o s ho
    rcases o with ⟨ca, rt, r⟩
    cases ho
    exact ⟨rfl, rfl, rfl, rfl⟩

/-- Witness for C4 at a concrete body-read failure on a 500 response. -/
theorem C4_body_read_before_close_and_read_failure_is_failure_record_witness :
    ((ProbeResult.bodyReadError 500 ≠ .transportError) ∧
     (ProbeEvent.readBodyToEnd ∈ v1ProbeEvents (.bodyReadError 500) ∧
      ProbeEvent.closeBody ∈ v1ProbeEvents (.bodyReadError 500) ∧
      (v1ProbeEvents (.bodyReadError 500)).indexOf ProbeEvent.readBodyToEnd <
        (v1ProbeEvents (.bodyReadError 500)).indexOf ProbeEvent.closeBody ∧
      ProbeEvent.readBodyToEnd ∈ v2ProbeEvents (.bodyReadError 500) ∧
      ProbeEvent.closeBody ∈ v2ProbeEvents (.bodyReadError 500) ∧
      (v2ProbeEvents (.bodyReadError 500)).indexOf ProbeEvent.readBodyToEnd <
        (v2ProbeEvents (.bodyReadError 500)).indexOf ProbeEvent.closeBody)) ∧
    ((v1Record ⟨0, 0, .bodyReadError 500⟩).Running = false ∧
     (v1Record ⟨0, 0, .bodyReadError 500⟩).Name = DOCKER_JWT_STOPPED ∧
     (v2Record ⟨0, 0, .bodyReadError 500⟩).Running = false ∧
     (v2Record ⟨0, 0, .bodyReadError 500⟩).Name = DOCKER_JWT_STOPPED) :=
  ⟨⟨by decide,
    C4_body_read_before_close_and_read_failure_is_failure_record.1
      (.bodyReadError 500) (by decide)⟩,
   C4_body_read_before_close_and_read_failure_is_failure_record.2
     ⟨0, 0, .bodyReadError 500⟩ 500 rfl⟩

/-- C5: every record of either variant carries one of the two fixed
labels, and it carries the running label exactly when its Running flag
is set. -/
theorem C5_label_invariant :
    ∀ o : ProbeOutcome,
      ((v1Record o).Name = DOCKER_JWT_RUNNING ∨ (v1Record o).Name = DOCKER_JWT_STOPPED) ∧
      ((v1Record o).Name = DOCKER_JWT_RUNNING ↔ (v1Record o).Running = true) ∧
      ((v2Record o).Name = DOCKER_JWT_RUNNING ∨ (v2Record o).Name = DOCKER_JWT_STOPPED) ∧
      ((v2Record o).Name = DOCKER_JWT_RUNNING ↔ (v2Record o).Running = true) := by
  intro o
  rcases o with ⟨ca, rt, r⟩
  cases r with
  | transportError =>
      exact ⟨Or.inr rfl, by simp [v1Record, stopped_ne_running],
             Or.inr rfl, by simp [v2Record, stopped_ne_running]⟩
  | bodyReadError s =>
      exact ⟨Or.inr rfl, by simp [v1Record, stopped_ne_running],
             Or.inr rfl, by simp [v2Record, stopped_ne_running]⟩
  | bodyRead s =>
      refine ⟨?_, ?_, Or.inl rfl, by simp [v2Record]⟩
      · by_cases hs : s = 200
        · subst hs; exact Or.inl rfl
        · right; simp [v1Record, hs]
      · by_cases hs : s = 200
        · subst hs; simp [v1Record]
        · simp [v1Record, hs, stopped_ne_running]

/-- Counterexample to C6: v2 performs no URL check at construction —
`Initialize` succeeds even with an empty target URL, and the empty URL
is instead detected on each batch call; moreover v1 accepts a
malformed non-empty URL at construction without failing. -/
theorem C6_counterexample :
    (v2Initialize ⟨"", ""⟩).isFatal = false ∧
    (v2BatchStartup ⟨"", ""⟩).isFatal = true ∧
    (v1Initialize ⟨"15", "::::"⟩).isFatal = false :=
  ⟨rfl, rfl, rfl⟩

/-- C6 amended: v1's construction fails fatally exactly when the
target URL is empty — any non-empty string, malformed or not, is
accepted and fixed together with the parsed time delay for the
service's lifetime. v2's construction never fails: it reads neither
variable; instead the URL and time delay are re-read on every batch
call, and the empty-URL check aborts the process there, per request. -/
theorem C6_url_check_v1_at_construction_v2_per_request :
    (∀ env : Env, (v1Initialize env).isFatal = true ↔ env.dockerAPIJWTVar = "") ∧
    (∀ env : Env, (v2Initialize env).isFatal = false) ∧
    (∀ env : Env, (v2BatchStartup env).isFatal = true ↔ env.dockerAPIJWTVar = "") ∧
    (∀ env : Env, env.dockerAPIJWTVar ≠ "" →
      v1Initialize env = .ok ⟨env.dockerAPIJWTVar, v1ParseTimeDelay env.timeDelayVar⟩ ∧
      v2BatchStartup env = .ok ⟨env.dockerAPIJWTVar, getEnvInt env.timeDelayVar 15⟩) := by
  refine ⟨?_, fun env => rfl, ?_, ?_⟩
  · intro env
    by_cases h : env.dockerAPIJWTVar = "" <;> simp [v1Initialize, h, Init.isFatal]
  · intro env
    by_cases h : env.dockerAPIJWTVar = "" <;> simp [v2BatchStartup, h, Init.isFatal]
  · intro env h
    constructor
    · simp [v1Initialize, h]
    · simp [v2BatchStartup, h]

/-- Witness for C6 at a concrete environment with a malformed
non-empty URL. -/
theorem C6_url_check_v1_at_construction_v2_per_request_witness :
    ((v1Initialize ⟨"15", "::::"⟩).isFatal = true ↔ ("::::" : String) = "") ∧
    ((Env.mk "15" "::::").dockerAPIJWTVar ≠ "" ∧
     (v1Initialize ⟨"15", "::::"⟩ =
        .ok ⟨"::::", v1ParseTimeDelay "15"⟩ ∧
      v2BatchStartup ⟨"15", "::::"⟩ =
        .ok ⟨"::::", getEnvInt "15" 15⟩)) :=
  ⟨C6_url_check_v1_at_construction_v2_per_request.1 ⟨"15", "::::"⟩,
   by decide,
   C6_url_check_v1_at_construction_v2_per_request.2.2.2 ⟨"15", "::::"⟩ (by decide)⟩

/-- Counterexample to C7: feed both variants the same three probe
outcomes — a 500 response whose body reads fine — and the same
completion order; v1 reports three stopped, not-running records while
v2 reports three running records, so the multisets of (label, flag,
status) differ. -/
theorem C7_counterexample :
    ¬ (((v1GetAllDockers (fun _ => ⟨0, 0, .bodyRead 500⟩) [0, 1, 2]).map recordKey :
          Multiset (String × Bool × Int)) =
       ((v2GetAllDockers (fun _ => ⟨0, 0, .bodyRead 500⟩) [0, 1, 2]).map recordKey :
          Multiset (String × Bool × Int))) := by
  decide

/-- C7 amended: the two collection disciplines themselves are
equivalent — for any fixed per-index record function and any two
completion orders, the mutex-guarded append and the channel drain
yield the same multiset of records. The full batch functions, however,
also differ in how they derive a record, so their outputs agree (for
all completion orders) when every probe outcome is a fully read 200
response — and the counterexample shows they need not otherwise. -/
theorem C7_collection_strategies_equivalent_derivations_not :
    (∀ (f : Fin 3 → Docker) (a1 a2 : List (Fin 3)),
      a1.Perm (List.finRange 3) → a2.Perm (List.finRange 3) →
      (collectMutex f a1 : Multiset Docker) = (collectChannel f a2 : Multiset Docker)) ∧
    (∀ (probe : Fin 3 → ProbeOutcome) (a1 a2 : List (Fin 3)),
      a1.Perm (List.finRange 3) → a2.Perm (List.finRange 3) →
      (∀ i : Fin 3, (probe i).result = .bodyRead 200) →
      (v1GetAllDockers probe a1 : Multiset Docker) =
        (v2GetAllDockers probe a2 : Multiset Docker)) := by
  constructor
  · intro f a1 a2 h1 h2
    rw [collectMutex_eq_map, collectChannel_eq_map]
    exact Multiset.coe_eq_coe.mpr ((h1.trans h2.symm).map f)
  · intro probe a1 a2 h1 h2 h200
    have hrec : ∀ i : Fin 3, v1Record (probe i) = v2Record (probe i) := by
      intro i
      have h := h200 i
      rcases hp : probe i with ⟨ca, rt, r⟩
      rw [hp] at h
      simp only at h
      rw [h]
      simp [v1Record, v2Record]
    rw [v1GetAllDockers, v2GetAllDockers, collectMutex_eq_map, collectChannel_eq_map]
    apply Multiset.coe_eq_coe.mpr
    have hmap : a1.map (fun i => v1Record (probe i)) =
        a1.map (fun i => v2Record (probe i)) :=
      List.map_congr_left (fun i _ => hrec i)
    rw [hmap]
    exact (h1.trans h2.symm).map _

/-- Witness for C7 at a concrete record function, two different
completion orders, and an all-200 batch. -/
theorem C7_collection_strategies_equivalent_derivations_not_witness :
    (([0, 1, 2] : List (Fin 3)).Perm (List.finRange 3) ∧
     ([2, 0, 1] : List (Fin 3)).Perm (List.finRange 3)) ∧
    (collectMutex (fun i => v1Record ⟨i.val, 0, .bodyRead 200⟩) [0, 1, 2] :
        Multiset Docker) =
      (collectChannel (fun i => v1Record ⟨i.val, 0, .bodyRead 200⟩) [2, 0, 1] :
        Multiset Docker) ∧
    (v1GetAllDockers (fun _ => ⟨0, 0, .bodyRead 200⟩) [0, 1, 2] : Multiset Docker) =
      (v2GetAllDockers (fun _ => ⟨0, 0, .bodyRead 200⟩) [2, 0, 1] : Multiset Docker) :=
  ⟨⟨by decide, by decide⟩,
   C7_collection_strategies_equivalent_derivations_not.1
     (fun i => v1Record ⟨i.val, 0, .bodyRead 200⟩) [0, 1, 2] [2, 0, 1]
     (by decide) (by decide),
   C7_collection_strategies_equivalent_derivations_not.2
     (fun _ => ⟨0, 0, .bodyRead 200⟩) [0, 1, 2] [2, 0, 1]
     (by decide) (by decide) (fun i => rfl)⟩

/-- Counterexample to C8: when the grace period expires, both variants
pass the shutdown error to `log.Fatalf`, so the process exits with a
non-zero status, not zero as claimed. -/
theorem C8_counterexample :
    v1RunExitCode .gracePeriodExpired ≠ 0 ∧
    v2RunExitCode .gracePeriodExpired ≠ 0 := by
  decide

/-- C8 amended: a grace-period-expired shutdown is logged but through
`log.Fatalf`, which exits the process with status 1 in both variants;
v2 exits with status 0 only when the shutdown completes within the
grace period, and v1 exits with status 1 even then, because it passes
the `http.ErrServerClosed` returned by `ListenAndServe` to
`log.Fatal`. -/
theorem C8_forced_shutdown_exits_nonzero :
    v1RunExitCode .gracePeriodExpired = 1 ∧
    v2RunExitCode .gracePeriodExpired = 1 ∧
    v2RunExitCode .completedWithinGrace = 0 ∧
    v1RunExitCode .completedWithinGrace = 1 :=
  ⟨rfl, rfl, rfl, rfl⟩

/-- Counterexample to C9: with an unset `TIME_DELAY` (the default 15),
v2's batch trace contains a mandatory non-zero sleep step after the
join and before the return, so the call does not return immediately
once all probes complete. -/
theorem C9_counterexample :
    BatchStep.sleepSeconds 15 ∈ v2BatchTrace ⟨"", "http://target"⟩ ∧
    ¬ ((15 : Int) = 0) := by
  decide

/-- C9 amended: v1's batch does return immediately after the join —
its trace has only the spawn, the join and the return, no sleep step —
while v2's batch always sleeps `TIME_DELAY` seconds (default 15) after
collecting all records and before returning, so only v1 treats the
configured delay as a per-probe deadline alone. -/
theorem C9_v1_returns_immediately_v2_sleeps :
    (∀ step : BatchStep, step ∈ v1BatchTrace →
      step = .spawnProbes 3 ∨ step = .joinAll ∨ step = .returnReport) ∧
    (∀ env : Env,
      BatchStep.sleepSeconds (getEnvInt env.timeDelayVar 15) ∈ v2BatchTrace env) := by
  constructor
  · intro step h
    simpa [v1BatchTrace] using h
  · intro env
    simp [v2BatchTrace]

/-- Witness for C9 at a concrete trace step and a concrete environment
with `TIME_DELAY` set to 2. -/
theorem C9_v1_returns_immediately_v2_sleeps_witness :
    (BatchStep.joinAll ∈ v1BatchTrace ∧
     (BatchStep.joinAll = .spawnProbes 3 ∨ BatchStep.joinAll = .joinAll ∨
      BatchStep.joinAll = .returnReport)) ∧
    BatchStep.sleepSeconds (getEnvInt "2" 15) ∈ v2BatchTrace ⟨"2", "http://target"⟩ :=
  ⟨⟨by decide, C9_v1_returns_immediately_v2_sleeps.1 BatchStep.joinAll (by decide)⟩,
   C9_v1_returns_immediately_v2_sleeps.2 ⟨"2", "http://target"⟩⟩

/-- C10: whatever the three probe outcomes and completion orders, the
endpoint handler of either variant responds with HTTP status 200,
content type application/json, and the JSON-encoded array of the
batch's records — probe failures never change the endpoint's own
response status. -/
theorem C10_handler_always_200_json :
    ∀ (probe : Fin 3 → ProbeOutcome) (arrival sends : List (Fin 3)),
      (v1Handler (v1GetAllDockers probe arrival)).status = 200 ∧
      (v1Handler (v1GetAllDockers probe arrival)).contentType = "application/json" ∧
      (v1Handler (v1GetAllDockers probe arrival)).body =
        encodeDockers (v1GetAllDockers probe arrival) ∧
      (v2Handler (v2GetAllDockers probe sends)).status = 200 ∧
      (v2Handler (v2GetAllDockers probe sends)).contentType = "application/json" ∧
      (v2Handler (v2GetAllDockers probe sends)).body =
        encodeDockers (v2GetAllDockers probe sends) :=
  fun _ _ _ => ⟨rfl, rfl, rfl, rfl, rfl, rfl⟩

end DockerHealth
